import Mathlib

/-!
Shallow embedding of the frame-orchestration core of the VideoGenerator
repository (src/src/client): VulkanContext, ComputePipeline, Renderer and
VideoWriter. GPU calls are modelled through explicit environments that
supply the result codes the driver would return; commands recorded into a
command buffer are modelled as a list of `Cmd` values; teardown calls are
modelled as lists of `DestroyAction` values. Handles are natural numbers
with 0 standing for VK_NULL_HANDLE. Sizes computed in VkDeviceSize
(uint64_t) arithmetic are reduced modulo 2^64.
-/

namespace VideoGen

/-- VkResult values the sources distinguish: VK_SUCCESS, VK_SUBOPTIMAL_KHR,
VK_ERROR_OUT_OF_DATE_KHR, and every other (failure) code. -/
inductive VkResult where
  | success
  | suboptimalKHR
  | errorOutOfDateKHR
  | errorOther (code : Int)
deriving DecidableEq

/-- Image layouts appearing in Renderer.cpp and ComputePipeline.cpp. -/
inductive VkImageLayout where
  | undefined
  | general
  | transferSrcOptimal
  | transferDstOptimal
  | presentSrcKHR
deriving DecidableEq

/-- VK_ACCESS_SHADER_READ_BIT. -/
def ACCESS_SHADER_READ : Nat := 0x20
/-- VK_ACCESS_SHADER_WRITE_BIT. -/
def ACCESS_SHADER_WRITE : Nat := 0x40
/-- VK_ACCESS_TRANSFER_READ_BIT. -/
def ACCESS_TRANSFER_READ : Nat := 0x800
/-- VK_ACCESS_TRANSFER_WRITE_BIT. -/
def ACCESS_TRANSFER_WRITE : Nat := 0x1000
/-- VK_PIPELINE_STAGE_TOP_OF_PIPE_BIT. -/
def STAGE_TOP_OF_PIPE : Nat := 0x1
/-- VK_PIPELINE_STAGE_COMPUTE_SHADER_BIT. -/
def STAGE_COMPUTE_SHADER : Nat := 0x800
/-- VK_PIPELINE_STAGE_TRANSFER_BIT. -/
def STAGE_TRANSFER : Nat := 0x1000
/-- VK_PIPELINE_STAGE_BOTTOM_OF_PIPE_BIT. -/
def STAGE_BOTTOM_OF_PIPE : Nat := 0x2000
/-- VK_MEMORY_PROPERTY_HOST_VISIBLE_BIT. -/
def MEMORY_HOST_VISIBLE : Nat := 0x2
/-- VK_MEMORY_PROPERTY_HOST_COHERENT_BIT. -/
def MEMORY_HOST_COHERENT : Nat := 0x4

/-- The images touched by the per-frame command buffer: the compute canvas
(ComputePipeline::storageImage) and the swapchain image at a given index
(VulkanContext::swapchainImages[i]). -/
inductive ImgRef where
  | canvas
  | swapImage (i : Nat)
deriving DecidableEq

/-- One VkImageMemoryBarrier together with the stage masks of the
vkCmdPipelineBarrier call that records it. -/
structure ImageBarrier where
  srcStage : Nat
  dstStage : Nat
  oldLayout : VkImageLayout
  newLayout : VkImageLayout
  image : ImgRef
  srcAccess : Nat
  dstAccess : Nat
deriving DecidableEq

/-- Commands recorded into a command buffer by ComputePipeline::recordDispatch
and Renderer::renderFrame. Copies record source, destination, layouts and the
extent of the region. The staging buffer is the only buffer-copy target. -/
inductive Cmd where
  | bindPipeline
  | bindDescriptorSets
  | pushConstants (t : Float)
  | dispatch (gx gy gz : Nat)
  | barrier (b : ImageBarrier)
  | copyImage (src : ImgRef) (srcLayout : VkImageLayout)
      (dst : ImgRef) (dstLayout : VkImageLayout) (w h d : Nat)
  | copyImageToBuffer (src : ImgRef) (srcLayout : VkImageLayout) (w h d : Nat)

/-- VkExtent2D, fields uint32_t. -/
structure VkExtent2D where
  width : Nat
  height : Nat
deriving DecidableEq

/-- State of struct VulkanContext (VulkanContext.hpp): handles as naturals,
0 = VK_NULL_HANDLE. `inst` stands for the field named instance in the
source (that word is reserved in Lean). -/
structure VulkanContext where
  window : Nat := 0
  inst : Nat := 0
  physicalDevice : Nat := 0
  device : Nat := 0
  queueFamilyIndex : Nat := 0
  queue : Nat := 0
  surface : Nat := 0
  swapchain : Nat := 0
  swapchainExtent : VkExtent2D := ⟨0, 0⟩
  swapchainImages : List Nat := []
  swapchainImageViews : List Nat := []
  cmdPool : Nat := 0
  maxFramesInFlight : Nat := 2

/-- State of struct ComputePipeline (ComputePipeline.hpp). -/
structure ComputePipeline where
  device : Nat := 0
  pipeline : Nat := 0
  layout : Nat := 0
  descLayout : Nat := 0
  descPool : Nat := 0
  descSet : Nat := 0
  storageImage : Nat := 0
  storageMemory : Nat := 0
  storageView : Nat := 0
  width : Nat := 0
  height : Nat := 0

/-- Renderer::FrameObjects: the three per-slot synchronization handles. -/
structure FrameObjects where
  imageAvailable : Nat := 0
  renderFinished : Nat := 0
  inFlightFence : Nat := 0
deriving DecidableEq

/-- State of struct Renderer (Renderer.hpp). ctx and compute are the two
pointers, none = nullptr. -/
structure Renderer where
  ctx : Option VulkanContext := none
  compute : Option ComputePipeline := none
  frames : List FrameObjects := []
  currentFrame : Nat := 0
  stagingBuffer : Nat := 0
  stagingMemory : Nat := 0
  stagingSize : Nat := 0

/-- ComputePipeline::recordDispatch (ComputePipeline.cpp, lines 151-158):
appends bind-pipeline, bind-descriptor-set, push-constant(t) and a dispatch
of (width+15)/16 by (height+15)/16 by 1 workgroups to the given command
buffer. Pure recording: the function reads the pipeline state and returns
only the extended command buffer. -/
def ComputePipeline.recordDispatch (cp : ComputePipeline) (cmd : List Cmd) (t : Float) :
    List Cmd :=
  cmd ++ [Cmd.bindPipeline, Cmd.bindDescriptorSets, Cmd.pushConstants t,
    Cmd.dispatch ((cp.width + 15) / 16) ((cp.height + 15) / 16) 1]

/-- The environment of one Renderer::renderFrame call: results the driver
returns from vkAcquireNextImageKHR (together with the image index it
writes), vkQueueSubmit, vkQueuePresentKHR, and the pointer vkMapMemory
yields (none = null). -/
structure RenderEnv where
  acquireResult : VkResult := .success
  imageIndex : Nat := 0
  submitResult : VkResult := .success
  presentResult : VkResult := .success
  mapPtr : Option Nat := some 1
deriving DecidableEq

/-- Observable actions of one renderFrame call: which slots had their fence
waited on and reset, the commands recorded into the frame command buffer,
how many queue submissions and presents were issued, and the lines written
to std::cerr. -/
structure Trace where
  fenceWaits : List Nat := []
  fenceResets : List Nat := []
  cmds : List Cmd := []
  submits : Nat := 0
  presents : Nat := 0
  logs : List String := []

/-- Barrier (2) of Renderer.cpp lines 109-122: canvas GENERAL to
TRANSFER_SRC_OPTIMAL. -/
def canvasToTransferSrc : Cmd :=
  .barrier ⟨STAGE_COMPUTE_SHADER, STAGE_TRANSFER, .general, .transferSrcOptimal,
    .canvas, ACCESS_SHADER_WRITE, ACCESS_TRANSFER_READ⟩

/-- Barrier (3) of Renderer.cpp lines 125-139: swapchain image i UNDEFINED
to TRANSFER_DST_OPTIMAL. -/
def swapToTransferDst (i : Nat) : Cmd :=
  .barrier ⟨STAGE_TOP_OF_PIPE, STAGE_TRANSFER, .undefined, .transferDstOptimal,
    .swapImage i, 0, ACCESS_TRANSFER_WRITE⟩

/-- Copy (4) of Renderer.cpp lines 142-152: canvas to swapchain image i at
the full swapchain extent. -/
def copyCanvasToSwap (i w h : Nat) : Cmd :=
  .copyImage .canvas .transferSrcOptimal (.swapImage i) .transferDstOptimal w h 1

/-- Copy (5) of Renderer.cpp lines 155-165: canvas to the staging buffer,
tightly packed, full extent. -/
def copyCanvasToStaging (w h : Nat) : Cmd :=
  .copyImageToBuffer .canvas .transferSrcOptimal w h 1

/-- Barrier (6) of Renderer.cpp lines 168-174: swapchain image i
TRANSFER_DST_OPTIMAL to PRESENT_SRC_KHR. -/
def swapToPresent (i : Nat) : Cmd :=
  .barrier ⟨STAGE_TRANSFER, STAGE_BOTTOM_OF_PIPE, .transferDstOptimal, .presentSrcKHR,
    .swapImage i, ACCESS_TRANSFER_WRITE, 0⟩

/-- Barrier (7) of Renderer.cpp lines 177-183: canvas TRANSFER_SRC_OPTIMAL
back to GENERAL. -/
def canvasToGeneral : Cmd :=
  .barrier ⟨STAGE_TRANSFER, STAGE_COMPUTE_SHADER, .transferSrcOptimal, .general,
    .canvas, ACCESS_TRANSFER_READ, ACCESS_SHADER_WRITE ||| ACCESS_SHADER_READ⟩

/-- The full content of the per-frame command buffer recorded by
Renderer::renderFrame (Renderer.cpp lines 103-185): the compute dispatch
recorded by ComputePipeline::recordDispatch followed by the two copies and
four barriers, in source order. -/
def frameCmds (cp : ComputePipeline) (extent : VkExtent2D) (i : Nat) (t : Float) :
    List Cmd :=
  cp.recordDispatch [] t ++
    [canvasToTransferSrc, swapToTransferDst i,
     copyCanvasToSwap i extent.width extent.height,
     copyCanvasToStaging extent.width extent.height,
     swapToPresent i, canvasToGeneral]

/-- Trace of a frame abandoned at acquisition (Renderer.cpp lines 73-82):
the slot fence was waited on and reset, the stale surface was logged, and
nothing was recorded, submitted or presented. -/
def staleTrace (slot : Nat) : Trace :=
  { fenceWaits := [slot], fenceResets := [slot], logs := ["Swapchain out of date"] }

/-- Trace of a completed frame: fence wait and reset for the slot, the
frame command buffer, one submission, one present, and the soft-present
log line when the present result was out-of-date or suboptimal. -/
def successTrace (slot : Nat) (cmds : List Cmd) (env : RenderEnv) : Trace :=
  { fenceWaits := [slot], fenceResets := [slot], cmds := cmds,
    submits := 1, presents := 1,
    logs := if env.presentResult = .errorOutOfDateKHR
        ∨ env.presentResult = .suboptimalKHR then
      ["Swapchain out of date / suboptimal on present"] else [] }

/-- Renderer::renderFrame (Renderer.cpp lines 67-234). Returns the updated
renderer state, the trace of observable actions, the boolean result, and
the (pointer, size) pair written through outMappedPtr/outSize (none when
the outputs are not written). A thrown std::runtime_error is Except.error
with the thrown message. -/
def Renderer.renderFrame (rs : Renderer) (env : RenderEnv) (t : Float) :
    Except String (Renderer × Trace × Bool × Option (Nat × Nat)) :=
  match rs.ctx, rs.compute with
  | some c, some cp =>
    -- fence wait + reset for the current slot precede acquisition
    if env.acquireResult = .errorOutOfDateKHR then
      .ok (rs, staleTrace rs.currentFrame, false, none)
    else if env.acquireResult ≠ .success ∧ env.acquireResult ≠ .suboptimalKHR then
      .error "Failed to acquire swapchain image"
    else if env.submitResult ≠ .success then
      .error "Failed to submit draw command buffer"
    else if env.presentResult ≠ .errorOutOfDateKHR ∧ env.presentResult ≠ .suboptimalKHR
        ∧ env.presentResult ≠ .success then
      .error "Failed to present swapchain image"
    else
      match env.mapPtr with
      | none => .error "Failed to map staging memory"
      | some p =>
        .ok ({ rs with currentFrame := (rs.currentFrame + 1) % rs.frames.length },
             successTrace rs.currentFrame
               (frameCmds cp c.swapchainExtent env.imageIndex t) env,
             true, some (p, rs.stagingSize))
  | _, _ => .ok (rs, {}, false, none)

/-- The scan loop of VulkanContext::findMemoryType (VulkanContext.cpp lines
183-186), carrying the current index i and the remaining memory-type
property flags. The condition mirrors
`(typeFilter & (1u << i)) && (memoryTypes[i].propertyFlags & props) == props`. -/
def findMemoryTypeScan (typeFilter props : Nat) : Nat → List Nat → Except String Nat
  | _, [] => .error "Failed to find suitable memory type"
  | i, f :: rest =>
    if Nat.testBit typeFilter i = true ∧ Nat.land f props = props then .ok i
    else findMemoryTypeScan typeFilter props (i + 1) rest

/-- VulkanContext::findMemoryType (VulkanContext.cpp lines 180-188). The
memory types queried from the physical device are passed in as the list of
their propertyFlags values; the scan starts at index 0 and throws when no
index matches. -/
def VulkanContext.findMemoryType (memoryTypes : List Nat) (typeFilter props : Nat) :
    Except String Nat :=
  findMemoryTypeScan typeFilter props 0 memoryTypes

/-- Index i of the queried memory types is acceptable to findMemoryType:
bit i of typeFilter is set and the flags at i contain all requested
property bits. -/
def suitableMemType (typeFilter props : Nat) (memoryTypes : List Nat) (i : Nat) : Prop :=
  Nat.testBit typeFilter i = true ∧ Nat.land (memoryTypes.getD i 0) props = props

instance (typeFilter props : Nat) (memoryTypes : List Nat) (i : Nat) :
    Decidable (suitableMemType typeFilter props memoryTypes i) := by
  unfold suitableMemType; infer_instance

/-- The four calls VulkanContext::endSingleTimeCommands makes, in order. -/
inductive STCAction where
  | endCmdBuffer
  | queueSubmit
  | queueWaitIdle
  | freeCmdBuffer
deriving DecidableEq

/-- VulkanContext::endSingleTimeCommands (VulkanContext.cpp lines 170-178):
ends the buffer, submits it, waits for queue idle and frees it. The
argument is the VkResult the driver returns from vkQueueSubmit; the source
never reads it, so the function is total and never produces an error. -/
def VulkanContext.endSingleTimeCommands (_submitResult : VkResult) :
    Except String (List STCAction) :=
  .ok [STCAction.endCmdBuffer, STCAction.queueSubmit,
       STCAction.queueWaitIdle, STCAction.freeCmdBuffer]

/-- Release calls issued by the cleanup functions, tagged with the handle
they release. -/
inductive DestroyAction where
  | unmapMemory (h : Nat)
  | destroyBuffer (h : Nat)
  | freeMemory (h : Nat)
  | destroySemaphore (h : Nat)
  | destroyFence (h : Nat)
  | destroyPipeline (h : Nat)
  | destroyPipelineLayout (h : Nat)
  | destroyDescriptorPool (h : Nat)
  | destroyDescriptorSetLayout (h : Nat)
  | destroyImageView (h : Nat)
  | destroyImage (h : Nat)
  | destroySwapchain (h : Nat)
  | destroyCommandPool (h : Nat)
  | destroyDevice (h : Nat)
  | destroySurface (h : Nat)
  | destroyInstance (h : Nat)
deriving DecidableEq

/-- Renderer::cleanup (Renderer.cpp lines 53-65): releases the staging
buffer and memory when stagingMemory is nonnull, then destroys every
nonnull per-frame semaphore and fence. No member is set back to
VK_NULL_HANDLE, so the state is returned unchanged. -/
def Renderer.cleanup (rs : Renderer) : Renderer × List DestroyAction :=
  (rs,
   (if rs.stagingMemory ≠ 0 then
      [DestroyAction.unmapMemory rs.stagingMemory,
       DestroyAction.destroyBuffer rs.stagingBuffer,
       DestroyAction.freeMemory rs.stagingMemory]
    else []) ++
   (rs.frames.map fun f =>
      (if f.imageAvailable ≠ 0 then [DestroyAction.destroySemaphore f.imageAvailable] else []) ++
      (if f.renderFinished ≠ 0 then [DestroyAction.destroySemaphore f.renderFinished] else []) ++
      (if f.inFlightFence ≠ 0 then [DestroyAction.destroyFence f.inFlightFence] else [])).flatten)

/-- ComputePipeline::cleanup (ComputePipeline.cpp lines 160-170): a no-op
when device is already null; otherwise destroys each nonnull resource in
dependency order and nulls the device member. -/
def ComputePipeline.cleanup (cp : ComputePipeline) : ComputePipeline × List DestroyAction :=
  if cp.device = 0 then (cp, [])
  else
    ({ cp with device := 0 },
     (if cp.pipeline ≠ 0 then [DestroyAction.destroyPipeline cp.pipeline] else []) ++
     (if cp.layout ≠ 0 then [DestroyAction.destroyPipelineLayout cp.layout] else []) ++
     (if cp.descPool ≠ 0 then [DestroyAction.destroyDescriptorPool cp.descPool] else []) ++
     (if cp.descLayout ≠ 0 then [DestroyAction.destroyDescriptorSetLayout cp.descLayout] else []) ++
     (if cp.storageView ≠ 0 then [DestroyAction.destroyImageView cp.storageView] else []) ++
     (if cp.storageImage ≠ 0 then [DestroyAction.destroyImage cp.storageImage] else []) ++
     (if cp.storageMemory ≠ 0 then [DestroyAction.freeMemory cp.storageMemory] else []))

/-- VulkanContext::cleanup (VulkanContext.cpp lines 143-154): when device is
nonnull, destroys the image views, swapchain, command pool and device and
nulls the device member; then destroys the surface and instance whenever
those handles are nonnull — they are never nulled. window is set to
nullptr. -/
def VulkanContext.cleanup (c : VulkanContext) : VulkanContext × List DestroyAction :=
  ({ c with device := if c.device ≠ 0 then 0 else c.device, window := 0 },
   (if c.device ≠ 0 then
      c.swapchainImageViews.map DestroyAction.destroyImageView ++
      (if c.swapchain ≠ 0 then [DestroyAction.destroySwapchain c.swapchain] else []) ++
      (if c.cmdPool ≠ 0 then [DestroyAction.destroyCommandPool c.cmdPool] else []) ++
      [DestroyAction.destroyDevice c.device]
    else []) ++
   (if c.surface ≠ 0 then [DestroyAction.destroySurface c.surface] else []) ++
   (if c.inst ≠ 0 then [DestroyAction.destroyInstance c.inst] else []))

/-- The environment of one Renderer::init call: whether each resource
creation succeeds, the handles the driver hands back, the memory
requirements of the staging buffer, and the property flags of the memory
types queried from the physical device. -/
structure InitEnv where
  syncCreateOk : Bool := true
  syncFor : Nat → FrameObjects := fun _ => ⟨1, 1, 1⟩
  bufferCreateOk : Bool := true
  stagingBufferHandle : Nat := 1
  memReqBits : Nat := 1
  memTypes : List Nat := [MEMORY_HOST_VISIBLE ||| MEMORY_HOST_COHERENT]
  allocOk : Bool := true
  stagingMemoryHandle : Nat := 1

/-- Renderer::init (Renderer.cpp lines 7-51): stores the two pointers,
creates maxFramesInFlight frame-slot sync objects, computes stagingSize as
swapchainExtent.width * height * 4 in VkDeviceSize (uint64_t) arithmetic,
creates and allocates the staging buffer (the memory-type lookup may throw)
and maps it. Failures throw the runtime_error messages of the source. -/
def Renderer.init (rs : Renderer) (c : VulkanContext) (cp : ComputePipeline)
    (env : InitEnv) : Except String Renderer :=
  if env.syncCreateOk = false then .error "Failed to create sync objects"
  else if env.bufferCreateOk = false then .error "Failed to create staging buffer"
  else
    match VulkanContext.findMemoryType env.memTypes env.memReqBits
        (MEMORY_HOST_VISIBLE ||| MEMORY_HOST_COHERENT) with
    | .error e => .error e
    | .ok _ =>
      if env.allocOk = false then .error "Failed to allocate staging memory"
      else
        .ok { rs with
          ctx := some c
          compute := some cp
          frames := (List.range c.maxFramesInFlight).map env.syncFor
          stagingBuffer := env.stagingBufferHandle
          stagingMemory := env.stagingMemoryHandle
          stagingSize := c.swapchainExtent.width * c.swapchainExtent.height * 4 % 2 ^ 64 }

/-- State of class VideoWriter (VideoWriter.cpp): the popen handle of the
ffmpeg pipe, none = nullptr. -/
structure VideoWriter where
  ffmpeg : Option Nat := none
  width : Nat := 0
  height : Nat := 0
  fps : Nat := 0

/-- VideoWriter::writeFrameRGBA (VideoWriter.cpp lines 18-24): a no-op when
the pipe is not open; otherwise performs one fwrite of `bytes` bytes, and
when the transferred count `wrote` (supplied by the environment) differs
from `bytes`, logs a short-write warning to std::cerr. The function has no
failure path: it always returns a (possibly empty) list of warnings. -/
def VideoWriter.writeFrameRGBA (vw : VideoWriter) (bytes : Nat) (wrote : Nat) :
    Except String (List String) :=
  match vw.ffmpeg with
  | none => .ok []
  | some _ =>
    if wrote ≠ bytes then .ok ["Warning: ffmpeg short write"] else .ok []

/-! Concrete fixtures: a context, pipeline and renderer as they look after a
successful startup with a 512 x 512 surface and two frames in flight, and
render environments for the interesting driver outcomes. -/

/-- Fixture: a 512 x 512 swapchain extent. -/
def sampleExtent : VkExtent2D := ⟨512, 512⟩

/-- Fixture: a fully initialized VulkanContext with distinct nonnull handles. -/
def sampleCtx : VulkanContext :=
  { window := 1, inst := 2, physicalDevice := 3, device := 4, queueFamilyIndex := 0,
    queue := 5, surface := 6, swapchain := 7, swapchainExtent := sampleExtent,
    swapchainImages := [11, 12], swapchainImageViews := [13, 14], cmdPool := 8,
    maxFramesInFlight := 2 }

/-- Fixture: a fully initialized ComputePipeline for a 512 x 512 canvas. -/
def sampleCompute : ComputePipeline :=
  { device := 4, pipeline := 21, layout := 22, descLayout := 23, descPool := 24,
    descSet := 25, storageImage := 26, storageMemory := 27, storageView := 28,
    width := 512, height := 512 }

/-- Fixture: a Renderer after a successful init, slot 0 current. -/
def sampleRenderer : Renderer :=
  { ctx := some sampleCtx, compute := some sampleCompute,
    frames := [⟨31, 32, 33⟩, ⟨34, 35, 36⟩], currentFrame := 0,
    stagingBuffer := 41, stagingMemory := 42, stagingSize := 512 * 512 * 4 }

/-- Fixture: every driver call of a frame succeeds; image 0 is acquired and
the staging map yields pointer 50. -/
def envAllOk : RenderEnv :=
  { acquireResult := .success, imageIndex := 0, submitResult := .success,
    presentResult := .success, mapPtr := some 50 }

/-- Fixture: acquisition reports VK_ERROR_OUT_OF_DATE_KHR. -/
def envStale : RenderEnv := { envAllOk with acquireResult := .errorOutOfDateKHR }

/-- Fixture: every driver call succeeds but vkMapMemory yields null. -/
def envMapNull : RenderEnv := { envAllOk with mapPtr := none }

/-- Helper: renderFrame when ctx or compute is null (Renderer.cpp line 68). -/
theorem renderFrame_null (rs : Renderer) (env : RenderEnv) (t : Float)
    (h : rs.ctx = none ∨ rs.compute = none) :
    rs.renderFrame env t = Except.ok (rs, {}, false, none) := by
  unfold Renderer.renderFrame
  rcases h with h | h
  · rw [h]
  · rw [h]
    cases hc : rs.ctx <;> dsimp only

/-- Helper: renderFrame when acquisition reports the surface out of date
(Renderer.cpp lines 79-82). -/
theorem renderFrame_stale (rs : Renderer) (c : VulkanContext) (cp : ComputePipeline)
    (env : RenderEnv) (t : Float) (hc : rs.ctx = some c) (hcp : rs.compute = some cp)
    (ha : env.acquireResult = .errorOutOfDateKHR) :
    rs.renderFrame env t = Except.ok (rs, staleTrace rs.currentFrame, false, none) := by
  unfold Renderer.renderFrame
  rw [hc, hcp]
  dsimp only
  rw [if_pos ha]

/-- Helper: renderFrame when acquisition fails with a code that is neither
out-of-date, success nor suboptimal (Renderer.cpp lines 83-85). -/
theorem renderFrame_acquire_fatal (rs : Renderer) (c : VulkanContext)
    (cp : ComputePipeline) (env : RenderEnv) (t : Float)
    (hc : rs.ctx = some c) (hcp : rs.compute = some cp)
    (ha1 : env.acquireResult ≠ .errorOutOfDateKHR)
    (ha2 : env.acquireResult ≠ .success) (ha3 : env.acquireResult ≠ .suboptimalKHR) :
    rs.renderFrame env t = Except.error "Failed to acquire swapchain image" := by
  unfold Renderer.renderFrame
  rw [hc, hcp]
  dsimp only
  rw [if_neg ha1, if_pos ⟨ha2, ha3⟩]

/-- Helper: renderFrame when submission fails (Renderer.cpp lines 200-201). -/
theorem renderFrame_submit_fatal (rs : Renderer) (c : VulkanContext)
    (cp : ComputePipeline) (env : RenderEnv) (t : Float)
    (hc : rs.ctx = some c) (hcp : rs.compute = some cp)
    (ha : env.acquireResult = .success ∨ env.acquireResult = .suboptimalKHR)
    (hs : env.submitResult ≠ .success) :
    rs.renderFrame env t = Except.error "Failed to submit draw command buffer" := by
  unfold Renderer.renderFrame
  rw [hc, hcp]
  dsimp only
  have ha1 : env.acquireResult ≠ VkResult.errorOutOfDateKHR := by
    rcases ha with h | h <;> simp [h]
  have ha2 : ¬(env.acquireResult ≠ VkResult.success ∧
      env.acquireResult ≠ VkResult.suboptimalKHR) := by
    rcases ha with h | h <;> simp [h]
  rw [if_neg ha1, if_neg ha2, if_pos hs]

/-- Helper: renderFrame when presentation fails with a code that is neither
out-of-date, suboptimal nor success (Renderer.cpp lines 213-214). -/
theorem renderFrame_present_fatal (rs : Renderer) (c : VulkanContext)
    (cp : ComputePipeline) (env : RenderEnv) (t : Float)
    (hc : rs.ctx = some c) (hcp : rs.compute = some cp)
    (ha : env.acquireResult = .success ∨ env.acquireResult = .suboptimalKHR)
    (hs : env.submitResult = .success)
    (hp1 : env.presentResult ≠ .errorOutOfDateKHR)
    (hp2 : env.presentResult ≠ .suboptimalKHR)
    (hp3 : env.presentResult ≠ .success) :
    rs.renderFrame env t = Except.error "Failed to present swapchain image" := by
  unfold Renderer.renderFrame
  rw [hc, hcp]
  dsimp only
  have ha1 : env.acquireResult ≠ VkResult.errorOutOfDateKHR := by
    rcases ha with h | h <;> simp [h]
  have ha2 : ¬(env.acquireResult ≠ VkResult.success ∧
      env.acquireResult ≠ VkResult.suboptimalKHR) := by
    rcases ha with h | h <;> simp [h]
  rw [if_neg ha1, if_neg ha2, if_neg (by simpa using hs), if_pos ⟨hp1, hp2, hp3⟩]

/-- Helper: renderFrame when everything up to present went through but the
staging map yields a null pointer (Renderer.cpp lines 219-223). -/
theorem renderFrame_map_fatal (rs : Renderer) (c : VulkanContext)
    (cp : ComputePipeline) (env : RenderEnv) (t : Float)
    (hc : rs.ctx = some c) (hcp : rs.compute = some cp)
    (ha : env.acquireResult = .success ∨ env.acquireResult = .suboptimalKHR)
    (hs : env.submitResult = .success)
    (hp : env.presentResult = .errorOutOfDateKHR ∨ env.presentResult = .suboptimalKHR ∨
      env.presentResult = .success)
    (hm : env.mapPtr = none) :
    rs.renderFrame env t = Except.error "Failed to map staging memory" := by
  unfold Renderer.renderFrame
  rw [hc, hcp]
  dsimp only
  have ha1 : env.acquireResult ≠ VkResult.errorOutOfDateKHR := by
    rcases ha with h | h <;> simp [h]
  have ha2 : ¬(env.acquireResult ≠ VkResult.success ∧
      env.acquireResult ≠ VkResult.suboptimalKHR) := by
    rcases ha with h | h <;> simp [h]
  have hpn : ¬(env.presentResult ≠ VkResult.errorOutOfDateKHR ∧
      env.presentResult ≠ VkResult.suboptimalKHR ∧
      env.presentResult ≠ VkResult.success) := by
    rcases hp with h | h | h <;> simp [h]
  rw [if_neg ha1, if_neg ha2, if_neg (by simpa using hs), if_neg hpn, hm]

/-- Helper: renderFrame on a fully successful frame (acquire ok or
suboptimal, submit ok, present not hard-failed, map nonnull). -/
theorem renderFrame_success (rs : Renderer) (c : VulkanContext)
    (cp : ComputePipeline) (env : RenderEnv) (t : Float) (p : Nat)
    (hc : rs.ctx = some c) (hcp : rs.compute = some cp)
    (ha : env.acquireResult = .success ∨ env.acquireResult = .suboptimalKHR)
    (hs : env.submitResult = .success)
    (hp : env.presentResult = .errorOutOfDateKHR ∨ env.presentResult = .suboptimalKHR ∨
      env.presentResult = .success)
    (hm : env.mapPtr = some p) :
    rs.renderFrame env t =
      Except.ok ({ rs with currentFrame := (rs.currentFrame + 1) % rs.frames.length },
        successTrace rs.currentFrame (frameCmds cp c.swapchainExtent env.imageIndex t) env,
        true, some (p, rs.stagingSize)) := by
  unfold Renderer.renderFrame
  rw [hc, hcp]
  dsimp only
  have ha1 : env.acquireResult ≠ VkResult.errorOutOfDateKHR := by
    rcases ha with h | h <;> simp [h]
  have ha2 : ¬(env.acquireResult ≠ VkResult.success ∧
      env.acquireResult ≠ VkResult.suboptimalKHR) := by
    rcases ha with h | h <;> simp [h]
  have hpn : ¬(env.presentResult ≠ VkResult.errorOutOfDateKHR ∧
      env.presentResult ≠ VkResult.suboptimalKHR ∧
      env.presentResult ≠ VkResult.success) := by
    rcases hp with h | h | h <;> simp [h]
  rw [if_neg ha1, if_neg ha2, if_neg (by simpa using hs), if_neg hpn, hm]

/-- Helper: inversion of a renderFrame call that returned ok. A false
result leaves the renderer unchanged, writes no output and recorded,
submitted and presented nothing; a true result is the full success branch. -/
theorem renderFrame_ok_inv :
    ∀ (rs : Renderer) (env : RenderEnv) (t : Float) (rs2 : Renderer) (tr : Trace)
      (b : Bool) (out : Option (Nat × Nat)),
      rs.renderFrame env t = Except.ok (rs2, tr, b, out) →
      (b = false ∧ rs2 = rs ∧ out = none ∧ tr.cmds = [] ∧ tr.submits = 0 ∧
        tr.presents = 0) ∨
      (b = true ∧ ∃ c cp p,
        rs.ctx = some c ∧ rs.compute = some cp ∧
        (env.acquireResult = .success ∨ env.acquireResult = .suboptimalKHR) ∧
        env.submitResult = .success ∧
        (env.presentResult = .errorOutOfDateKHR ∨ env.presentResult = .suboptimalKHR ∨
          env.presentResult = .success) ∧
        env.mapPtr = some p ∧
        rs2 = { rs with currentFrame := (rs.currentFrame + 1) % rs.frames.length } ∧
        tr = successTrace rs.currentFrame (frameCmds cp c.swapchainExtent env.imageIndex t) env ∧
        out = some (p, rs.stagingSize)) := by
  intro rs env t rs2 tr b out h
  unfold Renderer.renderFrame at h
  split at h
  next c cp hctx hcp =>
    split at h
    · -- stale acquisition
      left
      simp only [Except.ok.injEq, Prod.mk.injEq] at h
      obtain ⟨h1, h2, h3, h4⟩ := h
      subst h2
      exact ⟨h3.symm, h1.symm, h4.symm, rfl, rfl, rfl⟩
    next hA1 =>
      split at h
      · exact absurd h (by simp)
      next hA2 =>
        split at h
        · exact absurd h (by simp)
        next hS =>
          split at h
          · exact absurd h (by simp)
          next hP =>
            split at h
            · exact absurd h (by simp)
            next p hm =>
              right
              simp only [Except.ok.injEq, Prod.mk.injEq] at h
              obtain ⟨h1, h2, h3, h4⟩ := h
              rw [not_and_or, not_not, not_not] at hA2
              rw [not_not] at hS
              rw [not_and_or, not_and_or, not_not, not_not, not_not] at hP
              exact ⟨h3.symm, c, cp, p, hctx, hcp, hA2, hS,
                by tauto, hm, h1.symm, h2.symm, h4.symm⟩
  next =>
    left
    simp only [Except.ok.injEq, Prod.mk.injEq] at h
    obtain ⟨h1, h2, h3, h4⟩ := h
    subst h2
    exact ⟨h3.symm, h1.symm, h4.symm, rfl, rfl, rfl⟩

/-- C7: ComputePipeline::recordDispatch appends to the given command buffer
exactly a bind-pipeline, a bind-descriptor-set, a push-constant carrying
the 32-bit float t, and a dispatch of ceil(width/16) by ceil(height/16) by
1 workgroups, for every canvas size and time value; it is pure recording —
it returns only the extended command buffer, performing no submission, no
wait and no state mutation. -/
theorem C7_recordDispatch_appends_exactly :
    ∀ (cp : ComputePipeline) (cmd : List Cmd) (t : Float),
      cp.recordDispatch cmd t =
        cmd ++ [Cmd.bindPipeline, Cmd.bindDescriptorSets, Cmd.pushConstants t,
          Cmd.dispatch ((cp.width + 15) / 16) ((cp.height + 15) / 16) 1] ∧
      (cp.width + 15) / 16 = cp.width ⌈/⌉ 16 ∧
      (cp.height + 15) / 16 = cp.height ⌈/⌉ 16 := by
  intro cp cmd t
  refine ⟨rfl, ?_, ?_⟩
  · rw [Nat.ceilDiv_eq_add_pred_div]
    omega
  · rw [Nat.ceilDiv_eq_add_pred_div]
    omega

/-- C5 counterexample: a failed submission (any VkResult other than
VK_SUCCESS) does not make endSingleTimeCommands fail — the source ignores
the result of vkQueueSubmit, so the call still ends, submits, waits and
frees without raising an error. -/
theorem C5_counterexample :
    VulkanContext.endSingleTimeCommands (VkResult.errorOther (-1)) =
      Except.ok [STCAction.endCmdBuffer, STCAction.queueSubmit,
        STCAction.queueWaitIdle, STCAction.freeCmdBuffer] ∧
    VkResult.errorOther (-1) ≠ VkResult.success := by
  exact ⟨rfl, by decide⟩

/-- C5 (amended): endSingleTimeCommands ends the command buffer, submits it
to the queue, waits for the queue to become idle and frees the buffer, in
that order, for every submission result; the submission result is never
inspected, so a failed submission does not raise an error. -/
theorem C5_endSingleTimeCommands_ignores_submit :
    ∀ r : VkResult,
      VulkanContext.endSingleTimeCommands r =
        Except.ok [STCAction.endCmdBuffer, STCAction.queueSubmit,
          STCAction.queueWaitIdle, STCAction.freeCmdBuffer] := by
  intro r
  rfl

/-- C10: writeFrameRGBA never fails: for every writer state, requested byte
count and transferred byte count it returns ok; when the pipe is open and
the transfer is short, the short write is detected and reported as exactly
one warning; a complete write produces no warning; and in no case does the
outcome stop frame production (there is no error result). -/
theorem C10_writeFrameRGBA_short_write_warns :
    ∀ (vw : VideoWriter) (bytes wrote : Nat),
      (∃ logs, vw.writeFrameRGBA bytes wrote = Except.ok logs) ∧
      (∀ pipe, vw.ffmpeg = some pipe → wrote ≠ bytes →
        vw.writeFrameRGBA bytes wrote = Except.ok ["Warning: ffmpeg short write"]) ∧
      (∀ pipe, vw.ffmpeg = some pipe → wrote = bytes →
        vw.writeFrameRGBA bytes wrote = Except.ok []) := by
  intro vw bytes wrote
  refine ⟨?_, ?_, ?_⟩
  · unfold VideoWriter.writeFrameRGBA
    match h : vw.ffmpeg with
    | none => exact ⟨[], rfl⟩
    | some _ =>
      by_cases hw : wrote = bytes
      · exact ⟨[], by simp [hw]⟩
      · exact ⟨["Warning: ffmpeg short write"], by simp [hw]⟩
  · intro pipe hp hw
    unfold VideoWriter.writeFrameRGBA
    rw [hp]
    simp [hw]
  · intro pipe hp hw
    unfold VideoWriter.writeFrameRGBA
    rw [hp]
    simp [hw]

/-- C10 witness: at an open pipe, a 1048576-byte frame of which only 1000
bytes reach the encoder stream yields the short-write warning and no
failure. -/
theorem C10_witness :
    VideoWriter.writeFrameRGBA ⟨some 9, 512, 512, 30⟩ 1048576 1000 =
      Except.ok ["Warning: ffmpeg short write"] := by
  exact (C10_writeFrameRGBA_short_write_warns ⟨some 9, 512, 512, 30⟩ 1048576 1000).2.1
    9 rfl (by decide)

/-- C1: every renderFrame call that returns true recorded, into its single
command buffer and in this order, the compute dispatch, the canvas
GENERAL-to-TRANSFER_SRC barrier, the acquired image
UNDEFINED-to-TRANSFER_DST barrier, the canvas-to-presentation-image copy,
the canvas-to-staging-buffer copy, the presentation image
TRANSFER_DST-to-PRESENT barrier and the canvas
TRANSFER_SRC-to-GENERAL barrier, and issued exactly one queue submission
and one present. -/
theorem C1_renderFrame_command_order :
    ∀ (rs : Renderer) (c : VulkanContext) (cp : ComputePipeline) (env : RenderEnv)
      (t : Float) (rs2 : Renderer) (tr : Trace) (out : Option (Nat × Nat)),
      rs.ctx = some c → rs.compute = some cp →
      rs.renderFrame env t = Except.ok (rs2, tr, true, out) →
      tr.cmds =
        cp.recordDispatch [] t ++
          [canvasToTransferSrc, swapToTransferDst env.imageIndex,
           copyCanvasToSwap env.imageIndex c.swapchainExtent.width c.swapchainExtent.height,
           copyCanvasToStaging c.swapchainExtent.width c.swapchainExtent.height,
           swapToPresent env.imageIndex, canvasToGeneral] ∧
      tr.submits = 1 ∧ tr.presents = 1 := by
  intro rs c cp env t rs2 tr out hc hcp h
  rcases renderFrame_ok_inv rs env t rs2 tr true out h with
    ⟨hb, _⟩ | ⟨_, c2, cp2, p, hc2, hcp2, _, _, _, _, _, htr, _⟩
  · exact absurd hb (by simp)
  · have hceq : c2 = c := by
      rw [hc] at hc2
      exact (Option.some_inj.mp hc2).symm
    have hcpeq : cp2 = cp := by
      rw [hcp] at hcp2
      exact (Option.some_inj.mp hcp2).symm
    subst hceq hcpeq htr
    exact ⟨rfl, rfl, rfl⟩

/-- C1 witness: on the sample renderer with every driver call succeeding,
the recorded command buffer is exactly the seven-step sequence and exactly
one submission and one present are issued. -/
theorem C1_witness :
    (Trace.cmds (successTrace 0 (frameCmds sampleCompute sampleExtent 0 0) envAllOk) =
      sampleCompute.recordDispatch [] 0 ++
        [canvasToTransferSrc, swapToTransferDst 0,
         copyCanvasToSwap 0 512 512, copyCanvasToStaging 512 512,
         swapToPresent 0, canvasToGeneral]) ∧
    Trace.submits (successTrace 0 (frameCmds sampleCompute sampleExtent 0 0) envAllOk) = 1 ∧
    Trace.presents (successTrace 0 (frameCmds sampleCompute sampleExtent 0 0) envAllOk) = 1 :=
  C1_renderFrame_command_order sampleRenderer sampleCtx sampleCompute envAllOk 0
    { sampleRenderer with currentFrame := 1 }
    (successTrace 0 (frameCmds sampleCompute sampleExtent 0 0) envAllOk)
    (some (50, 512 * 512 * 4)) rfl rfl rfl

/-- C3 counterexample: on the sample renderer (ring size 2, slot 0
current), a frame abandoned because acquisition reported the surface out
of date returns false with the slot index unchanged — it has not advanced
by one modulo the ring size. -/
theorem C3_counterexample :
    sampleRenderer.renderFrame envStale 0 =
      Except.ok (sampleRenderer, staleTrace 0, false, none) ∧
    sampleRenderer.currentFrame ≠
      (sampleRenderer.currentFrame + 1) % sampleRenderer.frames.length := by
  exact ⟨rfl, by decide⟩

/-- C3 (amended): the frame slot index advances by one modulo the ring size
exactly on the renderFrame calls that return true; a call that returns
false (stale acquisition, or a null context or compute pointer) leaves
currentFrame unchanged. -/
theorem C3_advance_on_success_only :
    ∀ (rs : Renderer) (env : RenderEnv) (t : Float) (rs2 : Renderer) (tr : Trace)
      (b : Bool) (out : Option (Nat × Nat)),
      rs.renderFrame env t = Except.ok (rs2, tr, b, out) →
      (b = true → rs2.currentFrame = (rs.currentFrame + 1) % rs.frames.length) ∧
      (b = false → rs2.currentFrame = rs.currentFrame) := by
  intro rs env t rs2 tr b out h
  rcases renderFrame_ok_inv rs env t rs2 tr b out h with
    ⟨hb, hrs, _⟩ | ⟨hb, c, cp, p, _, _, _, _, _, _, hrs, _⟩
  · constructor
    · intro hb2
      rw [hb] at hb2
      exact absurd hb2 (by simp)
    · intro _
      rw [hrs]
  · constructor
    · intro _
      rw [hrs]
    · intro hb2
      rw [hb] at hb2
      exact absurd hb2 (by simp)

/-- C3 witness: a successful frame on the sample renderer advances the slot
index from 0 to 1 = (0 + 1) % 2. -/
theorem C3_witness :
    Renderer.currentFrame { sampleRenderer with currentFrame := 1 } =
      (sampleRenderer.currentFrame + 1) % sampleRenderer.frames.length :=
  (C3_advance_on_success_only sampleRenderer envAllOk 0
    { sampleRenderer with currentFrame := 1 }
    (successTrace 0 (frameCmds sampleCompute sampleExtent 0 0) envAllOk)
    true (some (50, 512 * 512 * 4)) rfl).1 rfl

/-- C9: when acquisition reports the surface out of date, renderFrame
returns false with the renderer unchanged: the slot fence had already been
reset, and no submission, no present and no output write happen for that
frame. -/
theorem C9_stale_acquire_abandons_frame :
    ∀ (rs : Renderer) (c : VulkanContext) (cp : ComputePipeline) (env : RenderEnv)
      (t : Float),
      rs.ctx = some c → rs.compute = some cp →
      env.acquireResult = .errorOutOfDateKHR →
      rs.renderFrame env t = Except.ok (rs, staleTrace rs.currentFrame, false, none) ∧
      (staleTrace rs.currentFrame).fenceResets = [rs.currentFrame] ∧
      (staleTrace rs.currentFrame).submits = 0 ∧
      (staleTrace rs.currentFrame).presents = 0 ∧
      (staleTrace rs.currentFrame).logs = ["Swapchain out of date"] := by
  intro rs c cp env t hc hcp ha
  exact ⟨renderFrame_stale rs c cp env t hc hcp ha, rfl, rfl, rfl, rfl⟩

/-- C9 witness: the sample renderer under a stale acquisition returns false
with slot 0 reset, nothing submitted or presented, and no output. -/
theorem C9_witness :
    sampleRenderer.renderFrame envStale 0 =
      Except.ok (sampleRenderer, staleTrace sampleRenderer.currentFrame, false, none) ∧
    (staleTrace sampleRenderer.currentFrame).fenceResets = [sampleRenderer.currentFrame] ∧
    (staleTrace sampleRenderer.currentFrame).submits = 0 ∧
    (staleTrace sampleRenderer.currentFrame).presents = 0 ∧
    (staleTrace sampleRenderer.currentFrame).logs = ["Swapchain out of date"] :=
  C9_stale_acquire_abandons_frame sampleRenderer sampleCtx sampleCompute envStale 0
    rfl rfl rfl

/-- An acquisition result that is fatal to renderFrame: neither success,
suboptimal nor out-of-date. -/
def acquireFatal (env : RenderEnv) : Prop :=
  env.acquireResult ≠ .success ∧ env.acquireResult ≠ .suboptimalKHR ∧
    env.acquireResult ≠ .errorOutOfDateKHR

instance (env : RenderEnv) : Decidable (acquireFatal env) := by
  unfold acquireFatal; infer_instance

/-- A present result renderFrame only logs: out-of-date or suboptimal. -/
def presentSoft (env : RenderEnv) : Prop :=
  env.presentResult = .errorOutOfDateKHR ∨ env.presentResult = .suboptimalKHR

instance (env : RenderEnv) : Decidable (presentSoft env) := by
  unfold presentSoft; infer_instance

/-- A present result that is a hard failure: not soft and not success. -/
def presentFatal (env : RenderEnv) : Prop :=
  ¬ presentSoft env ∧ env.presentResult ≠ .success

instance (env : RenderEnv) : Decidable (presentFatal env) := by
  unfold presentFatal; infer_instance

/-- The exact conditions under which renderFrame throws, in the order the
source tests them: a fatal acquisition; otherwise (frame not abandoned) a
failed submission; otherwise a hard present failure; otherwise a null
result from mapping the staging memory. -/
def renderFatal (env : RenderEnv) : Prop :=
  acquireFatal env ∨
    (env.acquireResult ≠ .errorOutOfDateKHR ∧ ¬ acquireFatal env ∧
      (env.submitResult ≠ .success ∨
        (env.submitResult = .success ∧
          (presentFatal env ∨ (¬ presentFatal env ∧ env.mapPtr = none)))))

instance (env : RenderEnv) : Decidable (renderFatal env) := by
  unfold renderFatal; infer_instance

/-- Helper: every renderFrame error arises from one of the renderFatal
conditions. -/
theorem renderFrame_error_inv :
    ∀ (rs : Renderer) (env : RenderEnv) (t : Float) (e : String),
      rs.renderFrame env t = Except.error e → renderFatal env := by
  intro rs env t e h
  unfold Renderer.renderFrame at h
  split at h
  next c cp hctx hcp =>
    split at h
    · exact absurd h (by simp)
    next hA1 =>
      split at h
      next hA2 =>
        exact Or.inl ⟨hA2.1, hA2.2, hA1⟩
      next hA2 =>
        rw [not_and_or, not_not, not_not] at hA2
        have hnaf : ¬ acquireFatal env := by
          unfold acquireFatal
          rcases hA2 with h2 | h2 <;> simp [h2]
        split at h
        next hS =>
          exact Or.inr ⟨hA1, hnaf, Or.inl hS⟩
        next hS =>
          rw [not_not] at hS
          split at h
          next hP =>
            refine Or.inr ⟨hA1, hnaf, Or.inr ⟨hS, Or.inl ⟨?_, hP.2.2⟩⟩⟩
            unfold presentSoft
            rintro (hx | hx)
            · exact hP.1 hx
            · exact hP.2.1 hx
          next hP =>
            rw [not_and_or, not_and_or, not_not, not_not, not_not] at hP
            split at h
            next hm =>
              refine Or.inr ⟨hA1, hnaf, Or.inr ⟨hS, Or.inr ⟨?_, hm⟩⟩⟩
              unfold presentFatal presentSoft
              rcases hP with h2 | h2 | h2 <;> simp [h2]
            next p hm =>
              exact absurd h (by simp)
  next =>
    exact absurd h (by simp)

/-- C4 counterexample: with a live context, a successful acquisition,
submission and presentation but a null result from mapping the staging
memory, renderFrame still throws — a fatal error outside the three causes
the claim lists. -/
theorem C4_counterexample :
    (∃ e, sampleRenderer.renderFrame envMapNull 0 = Except.error e) ∧
    envMapNull.acquireResult = VkResult.success ∧
    envMapNull.submitResult = VkResult.success ∧
    envMapNull.presentResult = VkResult.success :=
  ⟨⟨"Failed to map staging memory", rfl⟩, rfl, rfl, rfl⟩

/-- C4 (amended): with a live context and compute pointer, renderFrame
throws if and only if acquisition fails with a code other than out-of-date
or suboptimal, or submission fails, or presentation fails with a code
other than out-of-date or suboptimal, or the staging-memory map after
present yields a null pointer; a stale acquisition is logged and yields
the non-fatal result false; and an out-of-date or suboptimal present
result is logged and — provided the staging map succeeds — does not
prevent the call from returning true. -/
theorem C4_fatal_error_characterization :
    ∀ (rs : Renderer) (c : VulkanContext) (cp : ComputePipeline) (env : RenderEnv)
      (t : Float),
      rs.ctx = some c → rs.compute = some cp →
      ((∃ e, rs.renderFrame env t = Except.error e) ↔ renderFatal env) ∧
      (env.acquireResult = .errorOutOfDateKHR →
        rs.renderFrame env t =
          Except.ok (rs, staleTrace rs.currentFrame, false, none) ∧
        (staleTrace rs.currentFrame).logs = ["Swapchain out of date"]) ∧
      (∀ p, ¬ acquireFatal env → env.acquireResult ≠ .errorOutOfDateKHR →
        env.submitResult = .success → presentSoft env → env.mapPtr = some p →
        rs.renderFrame env t =
          Except.ok ({ rs with currentFrame := (rs.currentFrame + 1) % rs.frames.length },
            successTrace rs.currentFrame
              (frameCmds cp c.swapchainExtent env.imageIndex t) env,
            true, some (p, rs.stagingSize)) ∧
        (successTrace rs.currentFrame
          (frameCmds cp c.swapchainExtent env.imageIndex t) env).logs =
            ["Swapchain out of date / suboptimal on present"]) := by
  intro rs c cp env t hc hcp
  refine ⟨⟨?_, ?_⟩, ?_, ?_⟩
  · rintro ⟨e, he⟩
    exact renderFrame_error_inv rs env t e he
  · intro hf
    rcases hf with ⟨h1, h2, h3⟩ | ⟨hA1, hnaf, hrest⟩
    · exact ⟨_, renderFrame_acquire_fatal rs c cp env t hc hcp h3 h1 h2⟩
    · unfold acquireFatal at hnaf
      rw [not_and_or, not_and_or, not_not, not_not, not_not] at hnaf
      have ha : env.acquireResult = VkResult.success ∨
          env.acquireResult = VkResult.suboptimalKHR := by
        rcases hnaf with h2 | h2 | h2
        · exact Or.inl h2
        · exact Or.inr h2
        · exact absurd h2 hA1
      rcases hrest with hS | ⟨hS, hPrest⟩
      · exact ⟨_, renderFrame_submit_fatal rs c cp env t hc hcp ha hS⟩
      · rcases hPrest with ⟨hns, hnsucc⟩ | ⟨hnpf, hm⟩
        · unfold presentSoft at hns
          rw [not_or] at hns
          exact ⟨_, renderFrame_present_fatal rs c cp env t hc hcp ha hS
            hns.1 hns.2 hnsucc⟩
        · unfold presentFatal at hnpf
          rw [not_and_or, not_not, not_not] at hnpf
          have hp : env.presentResult = VkResult.errorOutOfDateKHR ∨
              env.presentResult = VkResult.suboptimalKHR ∨
              env.presentResult = VkResult.success := by
            rcases hnpf with hs2 | hs2
            · unfold presentSoft at hs2
              rcases hs2 with h2 | h2
              · exact Or.inl h2
              · exact Or.inr (Or.inl h2)
            · exact Or.inr (Or.inr hs2)
          exact ⟨_, renderFrame_map_fatal rs c cp env t hc hcp ha hS hp hm⟩
  · intro ha
    exact ⟨renderFrame_stale rs c cp env t hc hcp ha, rfl⟩
  · intro p hnaf hA1 hS hp hm
    have ha : env.acquireResult = VkResult.success ∨
        env.acquireResult = VkResult.suboptimalKHR := by
      unfold acquireFatal at hnaf
      rw [not_and_or, not_and_or, not_not, not_not, not_not] at hnaf
      rcases hnaf with h2 | h2 | h2
      · exact Or.inl h2
      · exact Or.inr h2
      · exact absurd h2 hA1
    have hp3 : env.presentResult = VkResult.errorOutOfDateKHR ∨
        env.presentResult = VkResult.suboptimalKHR ∨
        env.presentResult = VkResult.success := by
      unfold presentSoft at hp
      rcases hp with h2 | h2
      · exact Or.inl h2
      · exact Or.inr (Or.inl h2)
    refine ⟨renderFrame_success rs c cp env t p hc hcp ha hS hp3 hm, ?_⟩
    unfold presentSoft at hp
    show (if env.presentResult = VkResult.errorOutOfDateKHR
        ∨ env.presentResult = VkResult.suboptimalKHR then
      ["Swapchain out of date / suboptimal on present"] else []) = _
    rw [if_pos hp]

/-- C4 witness: on the sample renderer, the all-success environment with a
null staging map satisfies the fatal condition, so renderFrame indeed
raises an error there. -/
theorem C4_witness :
    ∃ e, sampleRenderer.renderFrame envMapNull 0 = Except.error e :=
  ((C4_fatal_error_characterization sampleRenderer sampleCtx sampleCompute
    envMapNull 0 rfl rfl).1).mpr (by decide)

/-- Helper: the scan returns the fixed error message exactly when no
position of the remaining list satisfies the condition (indices are offset
by the start index s). -/
theorem findMemoryTypeScan_error_iff (f p : Nat) :
    ∀ (l : List Nat) (s : Nat),
      (∀ k, k < l.length →
          ¬(Nat.testBit f (s + k) = true ∧ Nat.land (l.getD k 0) p = p)) ↔
      findMemoryTypeScan f p s l = Except.error "Failed to find suitable memory type" := by
  intro l
  induction l with
  | nil => intro s; simp [findMemoryTypeScan]
  | cons f0 rest ih =>
    intro s
    constructor
    · intro h
      have h0 : ¬(Nat.testBit f s = true ∧ Nat.land f0 p = p) := by
        have := h 0 (by simp)
        simpa using this
      rw [findMemoryTypeScan, if_neg h0]
      refine (ih (s + 1)).mp ?_
      intro k hk
      have hh := h (k + 1) (by simpa using Nat.succ_lt_succ hk)
      have harith : s + (k + 1) = (s + 1) + k := by omega
      rw [harith, List.getD_cons_succ] at hh
      exact hh
    · intro h k hk
      rw [findMemoryTypeScan] at h
      by_cases h0 : Nat.testBit f s = true ∧ Nat.land f0 p = p
      · rw [if_pos h0] at h
        exact absurd h (by simp)
      · rw [if_neg h0] at h
        match k with
        | 0 => simpa using h0
        | k + 1 =>
          have hk2 : k < rest.length := by simpa using Nat.lt_of_succ_lt_succ hk
          have hh := (ih (s + 1)).mpr h k hk2
          have harith : s + (k + 1) = (s + 1) + k := by omega
          rw [harith, List.getD_cons_succ]
          exact hh

/-- Helper: when the scan returns index i, the condition holds at i and at
no earlier index the scan visited. -/
theorem findMemoryTypeScan_ok_sound (f p : Nat) :
    ∀ (l : List Nat) (s i : Nat),
      findMemoryTypeScan f p s l = Except.ok i →
      s ≤ i ∧ i - s < l.length ∧
      (Nat.testBit f i = true ∧ Nat.land (l.getD (i - s) 0) p = p) ∧
      (∀ j, s ≤ j → j < i →
        ¬(Nat.testBit f j = true ∧ Nat.land (l.getD (j - s) 0) p = p)) := by
  intro l
  induction l with
  | nil => intro s i h; simp [findMemoryTypeScan] at h
  | cons f0 rest ih =>
    intro s i h
    rw [findMemoryTypeScan] at h
    by_cases h0 : Nat.testBit f s = true ∧ Nat.land f0 p = p
    · rw [if_pos h0] at h
      have hi : s = i := by simpa using h
      subst hi
      refine ⟨Nat.le_refl s, by simp, by simpa using h0, ?_⟩
      intro j hj1 hj2
      omega
    · rw [if_neg h0] at h
      obtain ⟨h1, h2, h3, h4⟩ := ih (s + 1) i h
      refine ⟨by omega, by simp; omega, ?_, ?_⟩
      · have he : i - s = (i - (s + 1)) + 1 := by omega
        rw [he, List.getD_cons_succ]
        exact h3
      · intro j hj1 hj2
        rcases Nat.eq_or_lt_of_le hj1 with hq | hlt
        · subst hq
          simpa using h0
        · have he : j - s = (j - (s + 1)) + 1 := by omega
          rw [he, List.getD_cons_succ]
          exact h4 j (by omega) hj2

/-- Helper: when the condition holds at position k and fails at every
earlier position, the scan returns s + k. -/
theorem findMemoryTypeScan_ok_complete (f p : Nat) :
    ∀ (l : List Nat) (s k : Nat),
      k < l.length →
      (Nat.testBit f (s + k) = true ∧ Nat.land (l.getD k 0) p = p) →
      (∀ j, j < k → ¬(Nat.testBit f (s + j) = true ∧ Nat.land (l.getD j 0) p = p)) →
      findMemoryTypeScan f p s l = Except.ok (s + k) := by
  intro l
  induction l with
  | nil => intro s k hk; simp at hk
  | cons f0 rest ih =>
    intro s k hk hcond hmin
    rw [findMemoryTypeScan]
    match k with
    | 0 => rw [if_pos (by simpa using hcond), Nat.add_zero]
    | k + 1 =>
      have h0 : ¬(Nat.testBit f s = true ∧ Nat.land f0 p = p) := by
        simpa using hmin 0 (Nat.succ_pos k)
      rw [if_neg h0]
      have hk2 : k < rest.length := by simpa using Nat.lt_of_succ_lt_succ hk
      have hcond2 : Nat.testBit f ((s + 1) + k) = true ∧
          Nat.land (rest.getD k 0) p = p := by
        have harith : (s + 1) + k = s + (k + 1) := by omega
        rw [harith]
        simpa using hcond
      have hmin2 : ∀ j, j < k →
          ¬(Nat.testBit f ((s + 1) + j) = true ∧ Nat.land (rest.getD j 0) p = p) := by
        intro j hj
        have hh := hmin (j + 1) (Nat.succ_lt_succ hj)
        have harith : s + (j + 1) = (s + 1) + j := by omega
        rw [harith, List.getD_cons_succ] at hh
        exact hh
      have hres := ih (s + 1) k hk2 hcond2 hmin2
      rw [hres]
      congr 1
      omega

/-- C8: findMemoryType returns index i exactly when i is the smallest index
of the queried memory types whose bit is set in typeFilter and whose
property flags contain all requested bits; it raises the fatal error
exactly when no index of the queried types satisfies both conditions. -/
theorem C8_findMemoryType_first_match :
    ∀ (memoryTypes : List Nat) (typeFilter props : Nat),
      (∀ i, VulkanContext.findMemoryType memoryTypes typeFilter props = Except.ok i ↔
        (i < memoryTypes.length ∧ suitableMemType typeFilter props memoryTypes i ∧
          ∀ j, j < i → ¬ suitableMemType typeFilter props memoryTypes j)) ∧
      (VulkanContext.findMemoryType memoryTypes typeFilter props =
          Except.error "Failed to find suitable memory type" ↔
        ∀ j, j < memoryTypes.length → ¬ suitableMemType typeFilter props memoryTypes j) := by
  intro mts f p
  constructor
  · intro i
    constructor
    · intro h
      obtain ⟨h1, h2, h3, h4⟩ := findMemoryTypeScan_ok_sound f p mts 0 i h
      refine ⟨by simpa using h2, ⟨h3.1, by simpa using h3.2⟩, ?_⟩
      intro j hj
      have := h4 j (Nat.zero_le j) hj
      simpa [suitableMemType] using this
    · rintro ⟨h1, h2, h3⟩
      have := findMemoryTypeScan_ok_complete f p mts 0 i h1
        (by simpa [suitableMemType] using h2)
        (fun j hj => by simpa [suitableMemType] using h3 j hj)
      simpa using this
  · constructor
    · intro h j hj
      have := (findMemoryTypeScan_error_iff f p mts 0).mpr h j hj
      simpa [suitableMemType] using this
    · intro h
      refine (findMemoryTypeScan_error_iff f p mts 0).mp ?_
      intro k hk
      simpa [suitableMemType] using h k hk

/-- Fixture: a context whose surface extent is the largest representable
uint32 square, exercising the 64-bit staging-size arithmetic. -/
def bigCtx : VulkanContext :=
  { sampleCtx with swapchainExtent := ⟨2 ^ 32 - 1, 2 ^ 32 - 1⟩ }

/-- C2 counterexample: swapchain extents are uint32 values, and the source
computes the staging size in VkDeviceSize (uint64_t) arithmetic; at the
extent (2^32-1) x (2^32-1) a successful init stores the product reduced
modulo 2^64, which differs from the exact value w*h*4 the claim states. -/
theorem C2_counterexample :
    (Renderer.init {} bigCtx sampleCompute {}).map Renderer.stagingSize =
      Except.ok ((2 ^ 32 - 1) * (2 ^ 32 - 1) * 4 % 2 ^ 64) ∧
    (2 ^ 32 - 1) * (2 ^ 32 - 1) * 4 % 2 ^ 64 ≠ (2 ^ 32 - 1) * (2 ^ 32 - 1) * 4 := by
  exact ⟨rfl, by decide⟩

/-- C2 (amended): a successful init fixes stagingSize to
width * height * 4 computed in 64-bit arithmetic — equal to the exact
byte count w*h*4 whenever that product fits in a uint64, which covers
every realistic extent; afterwards no renderFrame call and no cleanup call
changes stagingSize, and every successful renderFrame reports exactly
stagingSize through outSize. -/
theorem C2_staging_size_invariant :
    (∀ (rs : Renderer) (c : VulkanContext) (cp : ComputePipeline) (env : InitEnv)
        (rs2 : Renderer),
      Renderer.init rs c cp env = Except.ok rs2 →
      rs2.stagingSize =
        c.swapchainExtent.width * c.swapchainExtent.height * 4 % 2 ^ 64 ∧
      (c.swapchainExtent.width * c.swapchainExtent.height * 4 < 2 ^ 64 →
        rs2.stagingSize = c.swapchainExtent.width * c.swapchainExtent.height * 4)) ∧
    (∀ (rs : Renderer) (env : RenderEnv) (t : Float) (rs2 : Renderer) (tr : Trace)
        (b : Bool) (out : Option (Nat × Nat)),
      rs.renderFrame env t = Except.ok (rs2, tr, b, out) →
      rs2.stagingSize = rs.stagingSize ∧
      ∀ p sz, out = some (p, sz) → sz = rs.stagingSize) ∧
    (∀ rs : Renderer, (Renderer.cleanup rs).1.stagingSize = rs.stagingSize) := by
  refine ⟨?_, ?_, ?_⟩
  · intro rs c cp env rs2 h
    unfold Renderer.init at h
    split at h
    · exact absurd h (by simp)
    · split at h
      · exact absurd h (by simp)
      · split at h
        · exact absurd h (by simp)
        · split at h
          · exact absurd h (by simp)
          · simp only [Except.ok.injEq] at h
            subst h
            refine ⟨rfl, ?_⟩
            intro hlt
            simpa using Nat.mod_eq_of_lt hlt
  · intro rs env t rs2 tr b out h
    rcases renderFrame_ok_inv rs env t rs2 tr b out h with
      ⟨_, hrs, hout, _⟩ | ⟨_, c, cp, p, _, _, _, _, _, _, hrs, _, hout⟩
    · subst hrs
      refine ⟨rfl, ?_⟩
      intro p sz hsz
      rw [hout] at hsz
      exact absurd hsz (by simp)
    · subst hrs
      refine ⟨rfl, ?_⟩
      intro p2 sz hsz
      rw [hout] at hsz
      simp only [Option.some.injEq, Prod.mk.injEq] at hsz
      exact hsz.2.symm
  · intro rs
    rfl

/-- C6 counterexample: after a first Renderer::cleanup on the sample
renderer has already freed staging memory handle 42, a second cleanup call
frees it again — the source never nulls the member, so the second call is
not a no-op on the released handles. -/
theorem C6_counterexample :
    DestroyAction.freeMemory 42 ∈ (Renderer.cleanup sampleRenderer).2 ∧
    DestroyAction.freeMemory 42 ∈
      (Renderer.cleanup (Renderer.cleanup sampleRenderer).1).2 := by
  decide

/-- C6 (amended): only ComputePipeline::cleanup is idempotent — it nulls
its device member, so a second call is a no-op. Renderer::cleanup returns
its state unchanged, so a second call repeats every release of the first
(in particular it frees a nonnull staging memory handle again), and
VulkanContext::cleanup nulls only the device, so a second call destroys a
nonnull surface and a nonnull instance again. -/
theorem C6_cleanup_second_call :
    (∀ cp : ComputePipeline,
      ComputePipeline.cleanup (ComputePipeline.cleanup cp).1 =
        ((ComputePipeline.cleanup cp).1, [])) ∧
    (∀ rs : Renderer,
      Renderer.cleanup (Renderer.cleanup rs).1 = Renderer.cleanup rs) ∧
    (∀ rs : Renderer, rs.stagingMemory ≠ 0 →
      DestroyAction.freeMemory rs.stagingMemory ∈
        (Renderer.cleanup (Renderer.cleanup rs).1).2) ∧
    (∀ c : VulkanContext, c.surface ≠ 0 →
      DestroyAction.destroySurface c.surface ∈
        (VulkanContext.cleanup (VulkanContext.cleanup c).1).2) ∧
    (∀ c : VulkanContext, c.inst ≠ 0 →
      DestroyAction.destroyInstance c.inst ∈
        (VulkanContext.cleanup (VulkanContext.cleanup c).1).2) := by
  refine ⟨?_, ?_, ?_, ?_, ?_⟩
  · intro cp
    have hz : (ComputePipeline.cleanup cp).1.device = 0 := by
      unfold ComputePipeline.cleanup
      split
      next h => exact h
      next h => rfl
    set q := (ComputePipeline.cleanup cp).1 with hq
    unfold ComputePipeline.cleanup
    rw [if_pos hz]
  · intro rs
    rfl
  · intro rs h
    simp [Renderer.cleanup, h]
  · intro c h
    simp [VulkanContext.cleanup, h]
  · intro c h
    simp [VulkanContext.cleanup, h]

end VideoGen
